import Mathlib

/-!
Verification of the SpeedKarma core against its natural-language specification.

The Rust sources are shallowly embedded: `f64` values become `ℚ`, `u32`/`usize`
become `ℕ`, `HashMap` iteration becomes association lists, and the randomness
and clock inputs of the stateful loops become explicit parameters.  Each
definition is translated from the function of the same name in the repository;
`src/network/stealth.rs`, `src/network/keeper.rs`, `src/core/intelligence.rs`
and `src/data/models.rs` are the sources of truth.
-/

namespace SpeedKarma

/-! ## Stealth engine (`src/network/stealth.rs`) -/

/-- `StealthLevel` from `src/data/models.rs`. -/
inductive StealthLevel
  | Low
  | Medium
  | High
  | Maximum
deriving DecidableEq

/-- `DetectionRisk` from `src/network/stealth.rs`. -/
inductive DetectionRisk
  | Low
  | Medium
  | High
  | Critical
deriving DecidableEq

/-- `AdaptiveStealthState` from `src/network/stealth.rs` (line 55).  The
`last_risk_assessment : Instant` field is embedded as an abstract `ℕ`
timestamp. -/
structure AdaptiveStealthState where
  current_risk_level : DetectionRisk
  consecutive_failures : ℕ
  last_risk_assessment : ℕ
  effectiveness_score : ℚ
  adaptation_count : ℕ
deriving DecidableEq

/-- The initial adaptive state built in `StealthEngine::new`
(`stealth.rs` line 111): risk `Low`, 0 failures, effectiveness score 1.0. -/
def freshAdaptiveState : AdaptiveStealthState :=
  { current_risk_level := DetectionRisk.Low
    consecutive_failures := 0
    last_risk_assessment := 0
    effectiveness_score := 1
    adaptation_count := 0 }

/-- `record_connection_result` from `stealth.rs` (line 1037).  On success the
consecutive-failure counter is kept as-is and, when an observed effectiveness
is supplied, the score moves by EMA `0.7·score + 0.3·eff`; on failure the
counter increments and the score is multiplied by 0.9. -/
def record_connection_result (s : AdaptiveStealthState) (success : Bool)
    (effectiveness : Option ℚ) : AdaptiveStealthState :=
  if success then
    match effectiveness with
    | some eff =>
        { s with effectiveness_score :=
            (7 / 10 : ℚ) * s.effectiveness_score + (3 / 10 : ℚ) * eff }
    | none => s
  else
    { s with
        consecutive_failures := s.consecutive_failures + 1
        effectiveness_score := s.effectiveness_score * (9 / 10 : ℚ) }

/-- The failure-count signal of `assess_detection_risk` (`stealth.rs`
line 970): the Rust `match` on `consecutive_failures` with arms
`0..=2`, `3..=5`, `6..=11`, `_`. -/
def failure_risk_of (n : ℕ) : DetectionRisk :=
  if n ≤ 2 then DetectionRisk.Low
  else if n ≤ 5 then DetectionRisk.Medium
  else if n ≤ 11 then DetectionRisk.High
  else DetectionRisk.Critical

/-- The effectiveness-score signal of `assess_detection_risk` (`stealth.rs`
line 978). -/
def effectiveness_risk_of (q : ℚ) : DetectionRisk :=
  if q < 3 / 10 then DetectionRisk.High
  else if q < 3 / 5 then DetectionRisk.Medium
  else DetectionRisk.Low

/-- The final `match` of `assess_detection_risk` (`stealth.rs` line 987)
returning the higher of the two risk levels. -/
def higher_risk : DetectionRisk → DetectionRisk → DetectionRisk
  | DetectionRisk.Critical, _ => DetectionRisk.Critical
  | _, DetectionRisk.Critical => DetectionRisk.Critical
  | DetectionRisk.High, _ => DetectionRisk.High
  | _, DetectionRisk.High => DetectionRisk.High
  | DetectionRisk.Medium, _ => DetectionRisk.Medium
  | _, DetectionRisk.Medium => DetectionRisk.Medium
  | _, _ => DetectionRisk.Low

/-- `assess_detection_risk` from `stealth.rs` (line 966). -/
def assess_detection_risk (s : AdaptiveStealthState) : DetectionRisk :=
  higher_risk (failure_risk_of s.consecutive_failures)
    (effectiveness_risk_of s.effectiveness_score)

/-- Severity rank of a risk level, used to state "the worse of two risks". -/
def riskRank : DetectionRisk → ℕ
  | DetectionRisk.Low => 0
  | DetectionRisk.Medium => 1
  | DetectionRisk.High => 2
  | DetectionRisk.Critical => 3

/-- The worse (higher-rank) of two risk levels, as the specification words it. -/
def riskMax (a b : DetectionRisk) : DetectionRisk :=
  if riskRank a ≤ riskRank b then b else a

/-- `n` consecutive `record_connection_result(false, None)` calls. -/
def applyFailures : ℕ → AdaptiveStealthState → AdaptiveStealthState
  | 0, s => s
  | n + 1, s => applyFailures n (record_connection_result s false none)

/-- The base rotation interval (seconds) per stealth level, from
`calculate_rotation_interval` in `stealth.rs` (line 300). -/
def rotation_base_secs : StealthLevel → ℕ
  | StealthLevel.Low => 900
  | StealthLevel.Medium => 600
  | StealthLevel.High => 300
  | StealthLevel.Maximum => 180

/-- The exclusive upper bound of the random offset drawn in
`calculate_rotation_interval` (`stealth.rs` line 308):
`variation = base_interval.as_secs() / 4`. -/
def rotation_variation (l : StealthLevel) : ℕ :=
  rotation_base_secs l / 4

/-- `calculate_rotation_interval` from `stealth.rs` (line 299), with the
outcome of `rng.gen_range(0..variation)` passed in as `randomOffset`; the code
returns `base_interval + Duration::from_secs(random_offset)`. -/
def calculate_rotation_interval (l : StealthLevel) (randomOffset : ℕ) : ℕ :=
  rotation_base_secs l + randomOffset

/-! ## Pattern learning engine (`src/core/intelligence.rs`, `src/data/models.rs`) -/

/-- `SpeedMeasurement` from `src/data/models.rs` (line 32), restricted to the
fields the analysed operations read; `hour` stands for `timestamp.hour()`. -/
structure SpeedMeasurement where
  download_mbps : ℚ
  upload_mbps : ℚ
  latency_ms : ℕ
  optimization_active : Bool
  confidence : ℚ
  hour : ℕ

/-- `SpeedMeasurement::performance_score` from `models.rs` (line 183). -/
def performance_score (m : SpeedMeasurement) : ℚ :=
  let download_score := min (m.download_mbps / 100) 1
  let upload_score := min (m.upload_mbps / 20) 1
  let latency_score := max (1 - (m.latency_ms : ℚ) / 1000) 0
  (download_score * (1 / 2) + upload_score * (3 / 10) + latency_score * (1 / 5))
    * m.confidence

/-- `StrategyEffectiveness` from `intelligence.rs`, restricted to the fields
read by `should_optimize` and `calculate_model_confidence`. -/
structure StrategyEffectiveness where
  avg_improvement : ℚ
  confidence : ℚ

/-- `PatternLearningModel` from `intelligence.rs`, with the two `HashMap`
fields embedded as association lists (`weekly_weights` and `isp_parameters`
are not read by the operations under analysis and are omitted). -/
structure PatternLearningModel where
  temporal_weights : List (ℕ × ℚ)
  strategy_effectiveness : List (String × StrategyEffectiveness)
  model_confidence : ℚ
  training_samples : ℕ

/-- `TimeRange` from `intelligence.rs` (line 45). -/
structure TimeRange where
  start_hour : ℕ
  start_minute : ℕ
  end_hour : ℕ
  end_minute : ℕ
  days_of_week : List ℕ
deriving DecidableEq

/-- `PatternAnalysis` from `intelligence.rs` (line 27). -/
structure PatternAnalysis where
  throttling_periods : List TimeRange
  baseline_speed : ℚ
  confidence_level : ℚ
  data_collection_days : ℕ
  isp_profile : Option String
deriving DecidableEq

/-- `OptimizationDecision` from `intelligence.rs` (line 56). -/
structure OptimizationDecision where
  should_activate : Bool
  reason : String
  confidence : ℚ
  estimated_improvement : Option ℚ

/-- `analyze_patterns` from `intelligence.rs` (line 1057).  The repository
reads become parameters: `measurements` is the result of
`get_speed_measurements_since` and `ispProfile` the current profile name. -/
def analyze_patterns (model : PatternLearningModel)
    (measurements : List SpeedMeasurement) (ispProfile : Option String) :
    PatternAnalysis :=
  if measurements.length < 20 then
    { throttling_periods := []
      baseline_speed := 0
      confidence_level := 0
      data_collection_days := 0
      isp_profile := none }
  else
    let baseline_measurements :=
      measurements.filter fun m => !m.optimization_active
    let baseline_speed :=
      if ¬ baseline_measurements.isEmpty then
        (baseline_measurements.map fun m => m.download_mbps).sum /
          (baseline_measurements.length : ℚ)
      else 0
    let throttling_periods :=
      (model.temporal_weights.filter fun hw =>
          decide (hw.2 < (3 / 5 : ℚ))).map fun hw =>
        { start_hour := hw.1
          start_minute := 0
          end_hour := hw.1
          end_minute := 59
          days_of_week := [0, 1, 2, 3, 4, 5, 6] : TimeRange }
    { throttling_periods := throttling_periods
      baseline_speed := baseline_speed
      confidence_level := model.model_confidence
      data_collection_days := measurements.length / 24
      isp_profile := ispProfile }

/-- `should_optimize` from `intelligence.rs` (line 1111). -/
def should_optimize (model : PatternLearningModel)
    (measurements : List SpeedMeasurement) (ispProfile : Option String) :
    OptimizationDecision :=
  let analysis := analyze_patterns model measurements ispProfile
  let should_activate :=
    decide ((3 / 5 : ℚ) < analysis.confidence_level) &&
      decide ((0 : ℚ) < analysis.baseline_speed) &&
      !analysis.throttling_periods.isEmpty
  let reason :=
    if should_activate then
      "Throttling patterns detected with sufficient confidence"
    else if analysis.confidence_level ≤ (3 / 5 : ℚ) then
      "Insufficient data confidence for optimization"
    else
      "No significant throttling patterns detected"
  let estimated_improvement :=
    if should_activate then
      some ((model.strategy_effectiveness.map fun p =>
        p.2.avg_improvement).foldl max 1)
    else none
  { should_activate := should_activate
    reason := reason
    confidence := analysis.confidence_level
    estimated_improvement := estimated_improvement }

/-- Mean of a bucket's scores, as computed in
`learn_temporal_patterns_advanced` (`intelligence.rs` line 588). -/
def scoresMean (xs : List ℚ) : ℚ :=
  xs.sum / (xs.length : ℚ)

/-- Population variance of a bucket's scores, as computed in
`learn_temporal_patterns_advanced` (`intelligence.rs` line 590). -/
def scoresVariance (xs : List ℚ) : ℚ :=
  ((xs.map fun s => (s - scoresMean xs) ^ 2).sum) / (xs.length : ℚ)

/-- The per-bucket body of `learn_temporal_patterns_advanced`
(`intelligence.rs` line 587): buckets with fewer than 5 scores are skipped,
otherwise the stored weight is `mean * (1 / (1 + variance))`. -/
def bucketWeight (scores : List ℚ) : Option ℚ :=
  if 5 ≤ scores.length then
    some (scoresMean scores * (1 / (1 + scoresVariance scores)))
  else none

/-- The composite performance scores landing in the hour-`h` bucket of
`learn_temporal_patterns_advanced` (`intelligence.rs` line 577). -/
def hourScores (measurements : List SpeedMeasurement) (h : ℕ) : List ℚ :=
  (measurements.filter fun m => m.hour == h).map performance_score

/-- The temporal weight `learn_temporal_patterns_advanced` stores for hour
`h`, or `none` when the bucket is skipped. -/
def learn_temporal_weight (measurements : List SpeedMeasurement) (h : ℕ) :
    Option ℚ :=
  bucketWeight (hourScores measurements h)

/-- The low-variance score bucket of the C5 scenario: {0.2,0.2,0.3,0.2,0.2}. -/
def lowVarScores : List ℚ :=
  [1 / 5, 1 / 5, 3 / 10, 1 / 5, 1 / 5]

/-- The high-variance score bucket of the C5 scenario:
{0.9,0.1,0.9,0.1,0.9}. -/
def highVarScores : List ℚ :=
  [9 / 10, 1 / 10, 9 / 10, 1 / 10, 9 / 10]

/-- Mean per-strategy confidence, as computed in
`calculate_model_confidence` (`intelligence.rs` line 911): the sum of the
stored strategy confidences divided by `max(len, 1)`. -/
def meanStrategyConfidence (m : PatternLearningModel) : ℚ :=
  ((m.strategy_effectiveness.map fun p => p.2.confidence).sum) /
    ((max m.strategy_effectiveness.length 1 : ℕ) : ℚ)

/-- `calculate_model_confidence` from `intelligence.rs` (line 903). -/
def calculate_model_confidence (m : PatternLearningModel) : ℚ :=
  let data_confidence := min ((m.training_samples : ℚ) / 1000) 1
  let strategy_confidence := meanStrategyConfidence m
  let temporal_confidence : ℚ :=
    if 12 ≤ m.temporal_weights.length then 4 / 5 else 2 / 5
  min (data_confidence * (3 / 10) + strategy_confidence * (2 / 5) +
    temporal_confidence * (3 / 10)) 1

/-- A model with twelve scored temporal hours, no strategies and no training
samples, used to test the temporal-coverage term of C8. -/
def twelveHourModel : PatternLearningModel :=
  { temporal_weights :=
      [(0, 1), (1, 1), (2, 1), (3, 1), (4, 1), (5, 1), (6, 1), (7, 1),
        (8, 1), (9, 1), (10, 1), (11, 1)]
    strategy_effectiveness := []
    model_confidence := 0
    training_samples := 0 }

/-- A model whose stored confidence is 0.9 and whose hour-0 temporal weight
0.5 flags a throttling window, used to test the sample-count threshold of
C2. -/
def cexModel : PatternLearningModel :=
  { temporal_weights := [(0, 1 / 2)]
    strategy_effectiveness := []
    model_confidence := 9 / 10
    training_samples := 0 }

/-- Twenty identical non-optimized measurements, used to test the
sample-count threshold of C2. -/
def cexMeasurements : List SpeedMeasurement :=
  List.replicate 20
    { download_mbps := 50
      upload_mbps := 5
      latency_ms := 50
      optimization_active := false
      confidence := 1
      hour := 0 }

/-- A single hour-20 measurement whose composite performance score is 0.2. -/
def hour20Sample : SpeedMeasurement :=
  { download_mbps := 40
    upload_mbps := 0
    latency_ms := 1000
    optimization_active := false
    confidence := 1
    hour := 20 }

/-- Five hour-20 measurements, a bucket large enough not to be skipped. -/
def witnessMeasurements : List SpeedMeasurement :=
  [hour20Sample, hour20Sample, hour20Sample, hour20Sample, hour20Sample]

/-! ## Cadence scheduler (`src/network/keeper.rs`) -/

/-- `KeeperCadence` from `keeper.rs` (line 19). -/
inductive KeeperCadence
  | Warmup
  | Steady
  | Recovery
  | Suspended
deriving DecidableEq

/-- `ThroughputKeeperConfig` as consumed by `keeper.rs`.  The struct is
declared in an out-of-tree config module; its fields and types are read off
their uses in `keeper.rs` (`cfg.enabled`, `cfg.hourly_budget_mb`,
`cfg.tighten_threshold_drop`, `cfg.burst_sizes_kb`).  The quiet-hours test and
the stability clock are abstracted into per-tick inputs. -/
structure ThroughputKeeperConfig where
  enabled : Bool
  hourly_budget_mb : ℚ
  tighten_threshold_drop : ℚ
  burst_sizes_kb : List ℕ

/-- The keeper's mutable state across `run_loop` ticks: the `cadence` and
`last_burst_kb` locals of `run_loop` (`keeper.rs` lines 211-212) plus the
`hourly_budget_used_mb` and `last_reset` fields (lines 41-42).  Times are
rational seconds. -/
structure KeeperState where
  cadence : KeeperCadence
  hourly_budget_used_mb : ℚ
  last_reset : ℚ
  last_burst_kb : ℕ

/-- The per-tick environment of `run_loop`: the shared optimization flag, the
quiet-hour test, the current clock, the throughput trend from
`get_recent_metrics`, the `stable_enough` elapsed-time test, and whether
`perform_burst` eventually succeeds within its three attempts. -/
structure KeeperTickInput where
  optimization_enabled : Bool
  quiet_hour : Bool
  now : ℚ
  trend : ℚ
  stable_enough : Bool
  burst_succeeds : Bool

/-- The sorted burst-size table of `choose_burst_size_kb` (`keeper.rs`
line 90): `sizes.sort()`. -/
def sortedBurstSizes (cfg : ThroughputKeeperConfig) : List ℕ :=
  cfg.burst_sizes_kb.mergeSort fun a b => decide (a ≤ b)

/-- `min_size` of `choose_burst_size_kb` (`keeper.rs` line 92):
`*sizes.first().unwrap_or(&64)`. -/
def minSizeKb (cfg : ThroughputKeeperConfig) : ℕ :=
  (sortedBurstSizes cfg).head?.getD 64

/-- `max_size` of `choose_burst_size_kb` (`keeper.rs` line 93):
`*sizes.last().unwrap_or(&256)`. -/
def maxSizeKb (cfg : ThroughputKeeperConfig) : ℕ :=
  (sortedBurstSizes cfg).getLast?.getD 256

/-- `choose_burst_size_kb` from `keeper.rs` (line 89). -/
def choose_burst_size_kb (cfg : ThroughputKeeperConfig)
    (cadence : KeeperCadence) (last_size : ℕ) : ℕ :=
  match cadence with
  | KeeperCadence.Warmup => max (minSizeKb cfg) 64
  | KeeperCadence.Recovery => min (last_size * 2) (maxSizeKb cfg)
  | KeeperCadence.Steady => last_size
  | KeeperCadence.Suspended => 0

/-- `reset_budget_if_needed` from `keeper.rs` (line 111): when at least one
hour has elapsed since `last_reset`, zero the budget counter and stamp
`last_reset` with the current time. -/
def reset_budget_if_needed (s : KeeperState) (now : ℚ) : KeeperState :=
  if (3600 : ℚ) ≤ now - s.last_reset then
    { s with hourly_budget_used_mb := 0, last_reset := now }
  else s

/-- The cadence state machine of `run_loop` (`keeper.rs` line 240), reached
only on ticks that pass the suspension guards. -/
def next_cadence (cfg : ThroughputKeeperConfig) (c : KeeperCadence)
    (inp : KeeperTickInput) : KeeperCadence :=
  match c with
  | KeeperCadence.Warmup =>
      if inp.stable_enough then KeeperCadence.Steady else KeeperCadence.Warmup
  | KeeperCadence.Steady =>
      if inp.trend ≤ 1 - cfg.tighten_threshold_drop then KeeperCadence.Recovery
      else KeeperCadence.Steady
  | KeeperCadence.Recovery =>
      if inp.stable_enough then KeeperCadence.Steady
      else KeeperCadence.Recovery
  | KeeperCadence.Suspended => KeeperCadence.Warmup

/-- Observable outcome of one `run_loop` tick: the successor state, the
attempted burst size (`none` when the tick sent no burst), and whether the
hourly budget counter was reset. -/
structure KeeperTickResult where
  state : KeeperState
  burst : Option ℕ
  didReset : Bool

/-- One iteration of the `loop` in `run_loop` (`keeper.rs` lines 214-297):
the enable/quiet-hour guard, the hourly budget reset and over-budget guard,
the cadence state machine, burst size selection, the burst attempt, and
budget accounting on success. -/
def keeper_tick (cfg : ThroughputKeeperConfig) (s : KeeperState)
    (inp : KeeperTickInput) : KeeperTickResult :=
  if inp.optimization_enabled = false ∨ cfg.enabled = false ∨
      inp.quiet_hour = true then
    { state := { s with cadence := KeeperCadence.Suspended }
      burst := none
      didReset := false }
  else
    let s1 := reset_budget_if_needed s inp.now
    let didReset := decide ((3600 : ℚ) ≤ inp.now - s.last_reset)
    if cfg.hourly_budget_mb ≤ s1.hourly_budget_used_mb then
      { state := { s1 with cadence := KeeperCadence.Suspended }
        burst := none
        didReset := didReset }
    else
      let c := next_cadence cfg s.cadence inp
      let size_kb := choose_burst_size_kb cfg c s.last_burst_kb
      if size_kb = 0 then
        { state := { s1 with cadence := c }
          burst := none
          didReset := didReset }
      else if inp.burst_succeeds then
        { state :=
            { cadence := c
              hourly_budget_used_mb :=
                s1.hourly_budget_used_mb + (size_kb : ℚ) / 1024
              last_reset := s1.last_reset
              last_burst_kb := size_kb }
          burst := some size_kb
          didReset := didReset }
      else
        { state := { s1 with cadence := c }
          burst := some size_kb
          didReset := didReset }

/-- A sequence of `run_loop` iterations from a given state. -/
def keeper_run (cfg : ThroughputKeeperConfig) (s : KeeperState)
    (inputs : List KeeperTickInput) : KeeperState :=
  inputs.foldl (fun s inp => (keeper_tick cfg s inp).state) s

/-- The keeper state at the top of `run_loop` for a keeper constructed at
time `t0`: cadence `Warmup`, zero budget used, `last_reset = t0`,
`last_burst_kb = 64` (`keeper.rs` lines 47-55 and 210-212). -/
def initialKeeperState (t0 : ℚ) : KeeperState :=
  { cadence := KeeperCadence.Warmup
    hourly_budget_used_mb := 0
    last_reset := t0
    last_burst_kb := 64 }

/-- An upper bound on every burst size `choose_burst_size_kb` can select. -/
def burstSizeBound (cfg : ThroughputKeeperConfig) : ℕ :=
  max (maxSizeKb cfg) (max (minSizeKb cfg) 64)

/-- The budget/state invariant of the keeper: the budget counter stays below
the configured budget plus one in-flight burst, and the remembered burst size
stays within the selectable bound. -/
def KeeperInv (cfg : ThroughputKeeperConfig) (s : KeeperState) : Prop :=
  s.hourly_budget_used_mb <
      cfg.hourly_budget_mb + (burstSizeBound cfg : ℚ) / 1024 ∧
  s.last_burst_kb ≤ burstSizeBound cfg

/-- A concrete keeper configuration for witnesses: enabled, 100 MB hourly
budget, 0.3 tighten threshold, burst sizes {64, 256} KB. -/
def keeperCfgW : ThroughputKeeperConfig :=
  { enabled := true
    hourly_budget_mb := 100
    tighten_threshold_drop := 3 / 10
    burst_sizes_kb := [64, 256] }

/-- A concrete active tick at time 3600 with throughput-trend 0.5: the
suspension guards pass and a full hour has elapsed. -/
def keeperInpResetW : KeeperTickInput :=
  { optimization_enabled := true
    quiet_hour := false
    now := 3600
    trend := 1 / 2
    stable_enough := false
    burst_succeeds := true }

/-- A concrete active tick 60 seconds after `keeperInpResetW`. -/
def keeperInpAfterW : KeeperTickInput :=
  { optimization_enabled := true
    quiet_hour := false
    now := 3660
    trend := 1
    stable_enough := false
    burst_succeeds := true }

/-- A tick on which the shared optimization flag is off. -/
def keeperInpDisabledW : KeeperTickInput :=
  { optimization_enabled := false
    quiet_hour := false
    now := 0
    trend := 1 / 2
    stable_enough := false
    burst_succeeds := true }

/-- A keeper state whose cadence is `Suspended`. -/
def suspendedKeeperStateW : KeeperState :=
  { cadence := KeeperCadence.Suspended
    hourly_budget_used_mb := 0
    last_reset := 0
    last_burst_kb := 64 }

/-- A keeper state whose cadence is `Steady`. -/
def steadyKeeperStateW : KeeperState :=
  { cadence := KeeperCadence.Steady
    hourly_budget_used_mb := 0
    last_reset := 3600
    last_burst_kb := 64 }

/-! ## Theorems -/

theorem higher_risk_eq_riskMax (a b : DetectionRisk) :
    higher_risk a b = riskMax a b := by
  cases a <;> cases b <;> rfl

/-- Claim C3: `assess_detection_risk` returns the worse of the
consecutive-failure signal (0-2 failures Low, 3-5 Medium, 6-11 High, 12 or
more Critical) and the effectiveness-EMA signal (score below 0.3 High, below
0.6 Medium, otherwise Low); and starting from a fresh engine, 3 consecutive
`record_connection_result(false, None)` calls yield Medium, 6 yield High and
12 yield Critical. -/
theorem assess_detection_risk_spec :
    (∀ s : AdaptiveStealthState,
      assess_detection_risk s =
        riskMax (failure_risk_of s.consecutive_failures)
          (effectiveness_risk_of s.effectiveness_score)) ∧
    assess_detection_risk (applyFailures 3 freshAdaptiveState) =
      DetectionRisk.Medium ∧
    assess_detection_risk (applyFailures 6 freshAdaptiveState) =
      DetectionRisk.High ∧
    assess_detection_risk (applyFailures 12 freshAdaptiveState) =
      DetectionRisk.Critical := by
  refine ⟨fun s => higher_risk_eq_riskMax _ _, ?_, ?_, ?_⟩ <;>
    norm_num [applyFailures, record_connection_result, freshAdaptiveState,
      assess_detection_risk, failure_risk_of, effectiveness_risk_of,
      higher_risk]

/-- Claim C4 fails as stated: on the in-range adaptive state whose
effectiveness score is 0, recording a failure leaves the score at 0, which is
not a strict decrease. -/
theorem record_failure_not_strictly_decreasing :
    ¬ ((record_connection_result
          { current_risk_level := DetectionRisk.Low
            consecutive_failures := 0
            last_risk_assessment := 0
            effectiveness_score := 0
            adaptation_count := 0 } false none).effectiveness_score <
        (0 : ℚ)) := by
  norm_num [record_connection_result]

/-- Claim C4 (amended): recording a failure updates the score to 0.9 times its
previous value, a strict decrease whenever the previous score is positive;
recording a success with observed effectiveness `e` updates the score to
`0.7·score + 0.3·e`, a strict increase whenever `e > score`; and a success
never resets the consecutive-failure counter. -/
theorem record_connection_result_ema_spec (s : AdaptiveStealthState) (e : ℚ) :
    (record_connection_result s false none).effectiveness_score =
      (9 / 10 : ℚ) * s.effectiveness_score ∧
    (0 < s.effectiveness_score →
      (record_connection_result s false none).effectiveness_score <
        s.effectiveness_score) ∧
    (record_connection_result s true (some e)).effectiveness_score =
      (7 / 10 : ℚ) * s.effectiveness_score + (3 / 10 : ℚ) * e ∧
    (s.effectiveness_score < e →
      s.effectiveness_score <
        (record_connection_result s true (some e)).effectiveness_score) ∧
    (record_connection_result s true (some e)).consecutive_failures =
      s.consecutive_failures ∧
    (record_connection_result s true none).consecutive_failures =
      s.consecutive_failures := by
  refine ⟨by simp [record_connection_result]; ring, ?_, rfl, ?_, rfl, rfl⟩
  · intro h
    simp only [record_connection_result, Bool.false_eq_true, if_false]
    nlinarith
  · intro h
    simp only [record_connection_result, if_true]
    nlinarith

/-- Witness for C4 on the fresh engine with observed effectiveness 2: both
strictness hypotheses are discharged at a concrete input. -/
theorem record_connection_result_ema_spec_witness :
    (record_connection_result freshAdaptiveState false none).effectiveness_score <
      freshAdaptiveState.effectiveness_score ∧
    freshAdaptiveState.effectiveness_score <
      (record_connection_result freshAdaptiveState true
        (some 2)).effectiveness_score :=
  ⟨(record_connection_result_ema_spec freshAdaptiveState 2).2.1 (by norm_num
      [freshAdaptiveState]),
   (record_connection_result_ema_spec freshAdaptiveState 2).2.2.2.1
    (by norm_num [freshAdaptiveState])⟩

/-- Claim C9: for every outcome of the randomness source and every stealth
level, the rotation interval chosen lies in the closed range
`[0.75·base, 1.25·base]`, where the base is 900 s for Low, 600 s for Medium,
300 s for High and 180 s for Maximum. -/
theorem calculate_rotation_interval_within_bounds (l : StealthLevel)
    (randomOffset : ℕ) (h : randomOffset < rotation_variation l) :
    (3 / 4 : ℚ) * rotation_base_secs l ≤
        calculate_rotation_interval l randomOffset ∧
    (calculate_rotation_interval l randomOffset : ℚ) ≤
        (5 / 4 : ℚ) * rotation_base_secs l := by
  have hup : 4 * calculate_rotation_interval l randomOffset ≤
      5 * rotation_base_secs l := by
    simp only [calculate_rotation_interval, rotation_variation] at h ⊢
    omega
  have hlo : 3 * rotation_base_secs l ≤
      4 * calculate_rotation_interval l randomOffset := by
    simp only [calculate_rotation_interval]
    omega
  have hupq : (4 : ℚ) * calculate_rotation_interval l randomOffset ≤
      5 * rotation_base_secs l := by exact_mod_cast hup
  have hloq : (3 : ℚ) * rotation_base_secs l ≤
      4 * calculate_rotation_interval l randomOffset := by exact_mod_cast hlo
  constructor <;> linarith

/-- Witness for C9 at stealth level Low with random offset 0. -/
theorem calculate_rotation_interval_within_bounds_witness :
    (3 / 4 : ℚ) * rotation_base_secs StealthLevel.Low ≤
        calculate_rotation_interval StealthLevel.Low 0 ∧
    (calculate_rotation_interval StealthLevel.Low 0 : ℚ) ≤
        (5 / 4 : ℚ) * rotation_base_secs StealthLevel.Low :=
  calculate_rotation_interval_within_bounds StealthLevel.Low 0 (by decide)

/-- Claim C10: a success report with no observed effectiveness leaves every
field of the adaptive stealth state unchanged. -/
theorem record_success_none_frame (s : AdaptiveStealthState) :
    record_connection_result s true none = s := rfl

/-- Claim C1: `should_optimize` activates exactly when the analysis confidence
exceeds 0.6, the baseline speed is positive, and at least one throttling
window was detected; if any conjunct fails, `should_activate` is false. -/
theorem should_optimize_gate_iff (model : PatternLearningModel)
    (measurements : List SpeedMeasurement) (ispProfile : Option String) :
    (should_optimize model measurements ispProfile).should_activate = true ↔
      ((3 / 5 : ℚ) <
          (analyze_patterns model measurements ispProfile).confidence_level ∧
        (0 : ℚ) <
          (analyze_patterns model measurements ispProfile).baseline_speed ∧
        (analyze_patterns model measurements ispProfile).throttling_periods ≠
          []) := by
  simp [should_optimize, Bool.and_eq_true, decide_eq_true_eq,
    List.isEmpty_iff, and_assoc]

/-- Claim C2 fails as stated: this sample set has 20 entries (fewer than 50),
yet `analyze_patterns` reports the model's stored confidence 0.9 and one
throttling window, not a zero-confidence empty analysis.  The code's
degraded-analysis threshold is 20 samples, not 50. -/
theorem analyze_patterns_threshold_counterexample :
    cexMeasurements.length < 50 ∧
    ¬ ((analyze_patterns cexModel cexMeasurements none).confidence_level = 0 ∧
      (analyze_patterns cexModel cexMeasurements none).throttling_periods =
        []) := by
  constructor
  · simp [cexMeasurements]
  · intro hcontra
    have h1 := hcontra.1
    norm_num [analyze_patterns, cexMeasurements, cexModel] at h1

/-- Claim C2 (amended): for every sample set with fewer than 20 entries,
`analyze_patterns` returns confidence 0.0 and an empty list of throttling
windows (a zero-confidence, empty-result analysis) rather than an error. -/
theorem analyze_patterns_small_sample (model : PatternLearningModel)
    (measurements : List SpeedMeasurement) (ispProfile : Option String)
    (h : measurements.length < 20) :
    analyze_patterns model measurements ispProfile =
      { throttling_periods := []
        baseline_speed := 0
        confidence_level := 0
        data_collection_days := 0
        isp_profile := none } := by
  simp [analyze_patterns, h]

/-- Witness for C2 (amended) on the empty sample set. -/
theorem analyze_patterns_small_sample_witness :
    List.length ([] : List SpeedMeasurement) < 20 ∧
    analyze_patterns cexModel [] none =
      { throttling_periods := []
        baseline_speed := 0
        confidence_level := 0
        data_collection_days := 0
        isp_profile := none } :=
  ⟨by decide, analyze_patterns_small_sample cexModel [] none (by decide)⟩

/-- Claim C5 fails as stated: the low-variance bucket {0.2,0.2,0.3,0.2,0.2}
yields weight 275/1252 ≈ 0.2196 while the high-variance bucket
{0.9,0.1,0.9,0.1,0.9} yields 725/1442 ≈ 0.5028 — the means (0.22 vs 0.58) are
not in fact similar, and the claimed strict inequality is reversed. -/
theorem bucket_weight_consistency_counterexample :
    bucketWeight lowVarScores = some (275 / 1252) ∧
    bucketWeight highVarScores = some (725 / 1442) ∧
    ¬ ((725 / 1442 : ℚ) < (275 / 1252 : ℚ)) := by
  refine ⟨?_, ?_, by norm_num⟩ <;>
    norm_num [bucketWeight, lowVarScores, highVarScores, scoresMean,
      scoresVariance]

/-- Claim C5 (amended): the weight stored for an hour bucket equals the mean
composite performance score of the bucket multiplied by `1/(1+variance)`, and
buckets with fewer than 5 samples are skipped; for the scenario's score sets
the low-variance bucket's weight 275/1252 is strictly SMALLER than the
high-variance bucket's 725/1442, because the means 0.22 and 0.58 differ. -/
theorem learn_temporal_weight_spec :
    (∀ (measurements : List SpeedMeasurement) (h : ℕ),
      5 ≤ (hourScores measurements h).length →
      learn_temporal_weight measurements h =
        some (scoresMean (hourScores measurements h) *
          (1 / (1 + scoresVariance (hourScores measurements h))))) ∧
    (∀ (measurements : List SpeedMeasurement) (h : ℕ),
      (hourScores measurements h).length < 5 →
      learn_temporal_weight measurements h = none) ∧
    bucketWeight lowVarScores = some (275 / 1252) ∧
    bucketWeight highVarScores = some (725 / 1442) ∧
    (275 / 1252 : ℚ) < (725 / 1442 : ℚ) := by
  refine ⟨?_, ?_, ?_, ?_, by norm_num⟩
  · intro measurements h hh
    simp [learn_temporal_weight, bucketWeight, hh]
  · intro measurements h hh
    simp [learn_temporal_weight, bucketWeight, Nat.not_le.mpr hh]
  · norm_num [bucketWeight, lowVarScores, scoresMean, scoresVariance]
  · norm_num [bucketWeight, highVarScores, scoresMean, scoresVariance]

/-- Witness for C5 (amended): the five-sample hour-20 bucket is scored by the
formula, and the empty bucket is skipped. -/
theorem learn_temporal_weight_spec_witness :
    5 ≤ (hourScores witnessMeasurements 20).length ∧
    learn_temporal_weight witnessMeasurements 20 =
      some (scoresMean (hourScores witnessMeasurements 20) *
        (1 / (1 + scoresVariance (hourScores witnessMeasurements 20)))) ∧
    (hourScores [] 10).length < 5 ∧
    learn_temporal_weight [] 10 = none :=
  ⟨by simp [hourScores, witnessMeasurements, hour20Sample],
   learn_temporal_weight_spec.1 witnessMeasurements 20
    (by simp [hourScores, witnessMeasurements, hour20Sample]),
   by simp [hourScores],
   learn_temporal_weight_spec.2.1 [] 10 (by simp [hourScores])⟩

/-- Claim C8 fails as stated: on a model with twelve scored temporal hours,
no strategies and no training samples, the code computes
0.3·0 + 0.4·0 + 0.3·0.8 = 0.24, while the claim's blend with a full-credit
(value 1) temporal term demands 0.3·0 + 0.4·0 + 0.3·1 = 0.3. -/
theorem calculate_model_confidence_counterexample :
    calculate_model_confidence twelveHourModel ≠
      min ((twelveHourModel.training_samples : ℚ) / 1000) 1 * (3 / 10) +
        meanStrategyConfidence twelveHourModel * (2 / 5) +
        (1 : ℚ) * (3 / 10) := by
  norm_num [calculate_model_confidence, twelveHourModel,
    meanStrategyConfidence]

/-- Claim C8 (amended): the overall model confidence equals the blend of 0.3
times sample-volume adequacy (samples/1000 saturating at 1), 0.4 times the
mean per-strategy confidence, and 0.3 times a temporal-coverage term that is
0.8 when at least 12 hours have scored temporal weights and 0.4 otherwise,
the blend clamped to at most 1. -/
theorem calculate_model_confidence_spec (m : PatternLearningModel) :
    calculate_model_confidence m =
      min ((3 / 10 : ℚ) * min ((m.training_samples : ℚ) / 1000) 1 +
        (2 / 5 : ℚ) * meanStrategyConfidence m +
        (3 / 10 : ℚ) *
          (if 12 ≤ m.temporal_weights.length then (4 / 5 : ℚ) else 2 / 5))
        1 := by
  simp only [calculate_model_confidence]
  congr 1
  ring

theorem keeper_run_nil (cfg : ThroughputKeeperConfig) (s : KeeperState) :
    keeper_run cfg s [] = s := rfl

theorem keeper_run_cons (cfg : ThroughputKeeperConfig) (s : KeeperState)
    (a : KeeperTickInput) (L : List KeeperTickInput) :
    keeper_run cfg s (a :: L) =
      keeper_run cfg (keeper_tick cfg s a).state L := rfl

theorem next_cadence_ne_suspended (cfg : ThroughputKeeperConfig)
    (c : KeeperCadence) (inp : KeeperTickInput) :
    next_cadence cfg c inp ≠ KeeperCadence.Suspended := by
  cases c <;> simp [next_cadence] <;> split_ifs <;> simp

theorem choose_burst_size_kb_le (cfg : ThroughputKeeperConfig)
    (c : KeeperCadence) (last_size : ℕ) (h : last_size ≤ burstSizeBound cfg) :
    choose_burst_size_kb cfg c last_size ≤ burstSizeBound cfg := by
  cases c
  · exact le_max_right _ _
  · exact h
  · exact (min_le_right _ _).trans (le_max_left _ _)
  · exact Nat.zero_le _

theorem keeper_tick_budget_step (cfg : ThroughputKeeperConfig)
    (hb : 0 ≤ cfg.hourly_budget_mb) (s : KeeperState) (inp : KeeperTickInput)
    (h1 : s.hourly_budget_used_mb <
      cfg.hourly_budget_mb + (burstSizeBound cfg : ℚ) / 1024)
    (h2 : s.last_burst_kb ≤ burstSizeBound cfg) :
    (keeper_tick cfg s inp).state.hourly_budget_used_mb <
        cfg.hourly_budget_mb + (burstSizeBound cfg : ℚ) / 1024 ∧
    (keeper_tick cfg s inp).state.last_burst_kb ≤ burstSizeBound cfg := by
  have h64 : (64 : ℕ) ≤ burstSizeBound cfg :=
    le_max_of_le_right (le_max_right _ _)
  have h64q : (64 : ℚ) ≤ (burstSizeBound cfg : ℚ) := by exact_mod_cast h64
  have hbound : (0 : ℚ) < (burstSizeBound cfg : ℚ) / 1024 := by linarith
  have hs1used : (reset_budget_if_needed s inp.now).hourly_budget_used_mb <
      cfg.hourly_budget_mb + (burstSizeBound cfg : ℚ) / 1024 := by
    unfold reset_budget_if_needed
    split_ifs
    · show (0 : ℚ) < cfg.hourly_budget_mb + (burstSizeBound cfg : ℚ) / 1024
      linarith
    · exact h1
  have hs1last : (reset_budget_if_needed s inp.now).last_burst_kb =
      s.last_burst_kb := by
    unfold reset_budget_if_needed
    split_ifs <;> rfl
  have hsz := choose_burst_size_kb_le cfg (next_cadence cfg s.cadence inp)
    s.last_burst_kb h2
  have hszq : ((choose_burst_size_kb cfg (next_cadence cfg s.cadence inp)
      s.last_burst_kb : ℕ) : ℚ) / 1024 ≤ (burstSizeBound cfg : ℚ) / 1024 := by
    have : ((choose_burst_size_kb cfg (next_cadence cfg s.cadence inp)
        s.last_burst_kb : ℕ) : ℚ) ≤ (burstSizeBound cfg : ℚ) := by
      exact_mod_cast hsz
    linarith
  simp only [keeper_tick]
  split_ifs with hg hover hsize hsucc
  · exact ⟨h1, h2⟩
  · exact ⟨hs1used, hs1last ▸ h2⟩
  · exact ⟨hs1used, hs1last ▸ h2⟩
  · exact ⟨add_lt_add_of_lt_of_le (not_le.mp hover) hszq, hsz⟩
  · exact ⟨hs1used, hs1last ▸ h2⟩

theorem keeper_run_budget_inv (cfg : ThroughputKeeperConfig)
    (hb : 0 ≤ cfg.hourly_budget_mb) (inputs : List KeeperTickInput) :
    ∀ s : KeeperState,
    s.hourly_budget_used_mb <
      cfg.hourly_budget_mb + (burstSizeBound cfg : ℚ) / 1024 →
    s.last_burst_kb ≤ burstSizeBound cfg →
    (keeper_run cfg s inputs).hourly_budget_used_mb <
        cfg.hourly_budget_mb + (burstSizeBound cfg : ℚ) / 1024 ∧
    (keeper_run cfg s inputs).last_burst_kb ≤ burstSizeBound cfg := by
  induction inputs with
  | nil => intro s h1 h2; exact ⟨h1, h2⟩
  | cons a L ih =>
      intro s h1 h2
      rw [keeper_run_cons]
      obtain ⟨h1', h2'⟩ := keeper_tick_budget_step cfg hb s a h1 h2
      exact ih _ h1' h2'

theorem keeper_tick_last_reset_mem (cfg : ThroughputKeeperConfig)
    (s : KeeperState) (inp : KeeperTickInput) :
    (keeper_tick cfg s inp).state.last_reset = s.last_reset ∨
    (keeper_tick cfg s inp).state.last_reset = inp.now := by
  simp only [keeper_tick, reset_budget_if_needed]
  split_ifs <;> simp

theorem keeper_run_last_reset_ge (cfg : ThroughputKeeperConfig) (t : ℚ)
    (L : List KeeperTickInput) :
    ∀ s : KeeperState, t ≤ s.last_reset → (∀ j ∈ L, t ≤ j.now) →
    t ≤ (keeper_run cfg s L).last_reset := by
  induction L with
  | nil => intro s hs _; exact hs
  | cons a L ih =>
      intro s hs hL
      rw [keeper_run_cons]
      have ha : t ≤ a.now := hL a (by simp)
      have hnext : t ≤ (keeper_tick cfg s a).state.last_reset := by
        rcases keeper_tick_last_reset_mem cfg s a with h | h <;> rw [h]
        · exact hs
        · exact ha
      exact ih _ hnext fun j hj => hL j (by simp [hj])

theorem keeper_tick_didReset_last (cfg : ThroughputKeeperConfig)
    (s : KeeperState) (inp : KeeperTickInput)
    (h : (keeper_tick cfg s inp).didReset = true) :
    (keeper_tick cfg s inp).state.last_reset = inp.now := by
  simp only [keeper_tick, reset_budget_if_needed] at h ⊢
  split_ifs at h ⊢ <;> simp_all
  all_goals linarith

theorem keeper_tick_didReset_false (cfg : ThroughputKeeperConfig)
    (s : KeeperState) (inp : KeeperTickInput)
    (h : inp.now - s.last_reset < 3600) :
    (keeper_tick cfg s inp).didReset = false := by
  simp only [keeper_tick]
  split_ifs <;> simp [not_le] <;> linarith

theorem keeper_tick_didReset_eq (cfg : ThroughputKeeperConfig)
    (s : KeeperState) (inp : KeeperTickInput)
    (he : inp.optimization_enabled = true) (hc : cfg.enabled = true)
    (hq : inp.quiet_hour = false) :
    (keeper_tick cfg s inp).didReset =
      decide ((3600 : ℚ) ≤ inp.now - s.last_reset) := by
  simp only [keeper_tick]
  split_ifs with h1
  · exact absurd h1 (by simp [he, hc, hq])
  all_goals rfl

theorem keeper_tick_cadence_active (cfg : ThroughputKeeperConfig)
    (s : KeeperState) (inp : KeeperTickInput)
    (he : inp.optimization_enabled = true) (hc : cfg.enabled = true)
    (hq : inp.quiet_hour = false)
    (hbud : (reset_budget_if_needed s inp.now).hourly_budget_used_mb <
      cfg.hourly_budget_mb) :
    (keeper_tick cfg s inp).state.cadence = next_cadence cfg s.cadence inp := by
  simp only [keeper_tick]
  split_ifs with h1 h2 h3 h4
  · exact absurd h1 (by simp [he, hc, hq])
  · exact absurd h2 (not_le.mpr hbud)
  · rfl
  · rfl
  · rfl

theorem keeper_tick_cadence_guarded (cfg : ThroughputKeeperConfig)
    (s : KeeperState) (inp : KeeperTickInput)
    (h : inp.optimization_enabled = false ∨ cfg.enabled = false ∨
      inp.quiet_hour = true) :
    (keeper_tick cfg s inp).state.cadence = KeeperCadence.Suspended := by
  simp only [keeper_tick]
  rw [if_pos h]

theorem keeper_tick_cadence_overbudget (cfg : ThroughputKeeperConfig)
    (s : KeeperState) (inp : KeeperTickInput)
    (hover : cfg.hourly_budget_mb ≤
      (reset_budget_if_needed s inp.now).hourly_budget_used_mb) :
    (keeper_tick cfg s inp).state.cadence = KeeperCadence.Suspended := by
  simp only [keeper_tick]
  split_ifs with h1
  · rfl
  · rfl

/-- Claim C6 fails as stated: on a tick whose shared optimization flag is off,
a keeper whose cadence is `Suspended` stays `Suspended` instead of moving to
`Warmup`. -/
theorem keeper_suspended_not_always_warmup :
    (keeper_tick keeperCfgW suspendedKeeperStateW
        keeperInpDisabledW).state.cadence ≠ KeeperCadence.Warmup := by
  rw [keeper_tick_cadence_guarded keeperCfgW suspendedKeeperStateW
    keeperInpDisabledW (Or.inl rfl)]
  simp

/-- Claim C6 (amended): on every Keeper tick that passes the suspension
guards (optimization enabled, keeper enabled, not a quiet hour, budget not
exhausted after the hourly reset check), from Steady the next cadence is
Recovery exactly when the throughput trend is at most
`1 − tightenThresholdDrop`, and from Suspended the next cadence is Warmup; a
guarded tick — whether disabled, in a quiet hour, or over budget after the
hourly reset check — instead sets the cadence to Suspended; and no burst is
sent on a tick whose cadence is Suspended. -/
theorem keeper_cadence_spec (cfg : ThroughputKeeperConfig) :
    (∀ (s : KeeperState) (inp : KeeperTickInput),
      inp.optimization_enabled = true → cfg.enabled = true →
      inp.quiet_hour = false →
      (reset_budget_if_needed s inp.now).hourly_budget_used_mb <
        cfg.hourly_budget_mb →
      s.cadence = KeeperCadence.Steady →
      ((keeper_tick cfg s inp).state.cadence = KeeperCadence.Recovery ↔
        inp.trend ≤ 1 - cfg.tighten_threshold_drop)) ∧
    (∀ (s : KeeperState) (inp : KeeperTickInput),
      inp.optimization_enabled = true → cfg.enabled = true →
      inp.quiet_hour = false →
      (reset_budget_if_needed s inp.now).hourly_budget_used_mb <
        cfg.hourly_budget_mb →
      s.cadence = KeeperCadence.Suspended →
      (keeper_tick cfg s inp).state.cadence = KeeperCadence.Warmup) ∧
    (∀ (s : KeeperState) (inp : KeeperTickInput),
      (inp.optimization_enabled = false ∨ cfg.enabled = false ∨
        inp.quiet_hour = true) →
      (keeper_tick cfg s inp).state.cadence = KeeperCadence.Suspended) ∧
    (∀ (s : KeeperState) (inp : KeeperTickInput),
      cfg.hourly_budget_mb ≤
        (reset_budget_if_needed s inp.now).hourly_budget_used_mb →
      (keeper_tick cfg s inp).state.cadence = KeeperCadence.Suspended) ∧
    (∀ (s : KeeperState) (inp : KeeperTickInput),
      (keeper_tick cfg s inp).state.cadence = KeeperCadence.Suspended →
      (keeper_tick cfg s inp).burst = none) := by
  refine ⟨?_, ?_, fun s inp h => keeper_tick_cadence_guarded cfg s inp h,
    fun s inp h => keeper_tick_cadence_overbudget cfg s inp h, ?_⟩
  · intro s inp he hc hq hbud hst
    rw [keeper_tick_cadence_active cfg s inp he hc hq hbud, hst]
    simp only [next_cadence]
    split_ifs with hdrop
    · simpa using hdrop
    · simpa using hdrop
  · intro s inp he hc hq hbud hst
    rw [keeper_tick_cadence_active cfg s inp he hc hq hbud, hst]
    rfl
  · intro s inp hc
    simp only [keeper_tick] at hc ⊢
    split_ifs at hc ⊢ with h1 h2 h3 h4
    · rfl
    · rfl
    · rfl
    · exact absurd hc (by simpa using next_cadence_ne_suspended cfg s.cadence inp)
    · exact absurd hc (by simpa using next_cadence_ne_suspended cfg s.cadence inp)

/-- Witness for C6 (amended): with `tightenThresholdDrop = 0.3` and trend 0.5
a Steady keeper moves to Recovery on the next active tick, and a Suspended
keeper on an active tick moves to Warmup. -/
theorem keeper_cadence_spec_witness :
    (keeper_tick keeperCfgW steadyKeeperStateW
        keeperInpResetW).state.cadence = KeeperCadence.Recovery ∧
    (keeper_tick keeperCfgW suspendedKeeperStateW
        keeperInpAfterW).state.cadence = KeeperCadence.Warmup :=
  ⟨((keeper_cadence_spec keeperCfgW).1 steadyKeeperStateW keeperInpResetW rfl
      rfl rfl
      (by norm_num [reset_budget_if_needed, steadyKeeperStateW,
        keeperInpResetW, keeperCfgW]) rfl).mpr
    (by norm_num [keeperInpResetW, keeperCfgW]),
   (keeper_cadence_spec keeperCfgW).2.1 suspendedKeeperStateW keeperInpAfterW
    rfl rfl rfl
    (by norm_num [reset_budget_if_needed, suspendedKeeperStateW,
      keeperInpAfterW, keeperCfgW]) rfl⟩

/-- Claim C7: from the initial keeper state, the hourly budget usage counter
never exceeds the configured budget plus one in-flight burst; a burst is only
attempted when the (possibly just reset) usage is strictly below the budget; a
successful burst adds exactly its size; and once the counter is reset, no
further reset happens on any later tick less than one hour after it. -/
theorem keeper_budget_spec (cfg : ThroughputKeeperConfig)
    (hb : 0 ≤ cfg.hourly_budget_mb) :
    (∀ (t0 : ℚ) (inputs : List KeeperTickInput),
      (keeper_run cfg (initialKeeperState t0)
          inputs).hourly_budget_used_mb <
        cfg.hourly_budget_mb + (burstSizeBound cfg : ℚ) / 1024) ∧
    (∀ (s : KeeperState) (inp : KeeperTickInput),
      (keeper_tick cfg s inp).burst.isSome = true →
      (reset_budget_if_needed s inp.now).hourly_budget_used_mb <
        cfg.hourly_budget_mb) ∧
    (∀ (s : KeeperState) (inp : KeeperTickInput) (sz : ℕ),
      (keeper_tick cfg s inp).burst = some sz → inp.burst_succeeds = true →
      (keeper_tick cfg s inp).state.hourly_budget_used_mb =
        (reset_budget_if_needed s inp.now).hourly_budget_used_mb +
          (sz : ℚ) / 1024) ∧
    (∀ (s : KeeperState) (inp : KeeperTickInput)
        (L : List KeeperTickInput) (inp2 : KeeperTickInput),
      (keeper_tick cfg s inp).didReset = true →
      (∀ j ∈ L, inp.now ≤ j.now) → inp.now ≤ inp2.now →
      inp2.now < inp.now + 3600 →
      (keeper_tick cfg (keeper_run cfg (keeper_tick cfg s inp).state L)
          inp2).didReset = false) := by
  refine ⟨?_, ?_, ?_, ?_⟩
  · intro t0 inputs
    have h64 : (64 : ℕ) ≤ burstSizeBound cfg :=
      le_max_of_le_right (le_max_right _ _)
    have h64q : (64 : ℚ) ≤ (burstSizeBound cfg : ℚ) := by exact_mod_cast h64
    exact (keeper_run_budget_inv cfg hb inputs (initialKeeperState t0)
      (by simp [initialKeeperState]; linarith)
      (by simp [initialKeeperState, burstSizeBound])).1
  · intro s inp h
    simp only [keeper_tick] at h
    split_ifs at h with h1 h2 h3 h4
    · simp at h
    · simp at h
    · simp at h
    · exact not_le.mp h2
    · exact not_le.mp h2
  · intro s inp sz h hsucc
    simp only [keeper_tick] at h ⊢
    split_ifs at h ⊢
    all_goals simp_all
  · intro s inp L inp2 hreset hL hle hlt
    have hlast := keeper_tick_didReset_last cfg s inp hreset
    have hge : inp.now ≤
        (keeper_run cfg (keeper_tick cfg s inp).state L).last_reset :=
      keeper_run_last_reset_ge cfg inp.now L _ (le_of_eq hlast.symm) hL
    exact keeper_tick_didReset_false cfg _ inp2 (by linarith)

/-- Witness for C7: a two-tick run under the concrete configuration stays
under budget, and the tick one minute after a reset does not reset again. -/
theorem keeper_budget_spec_witness :
    (keeper_run keeperCfgW (initialKeeperState 0)
        [keeperInpResetW, keeperInpAfterW]).hourly_budget_used_mb <
      keeperCfgW.hourly_budget_mb + (burstSizeBound keeperCfgW : ℚ) / 1024 ∧
    (keeper_tick keeperCfgW
        (keeper_run keeperCfgW
          (keeper_tick keeperCfgW (initialKeeperState 0)
            keeperInpResetW).state [])
        keeperInpAfterW).didReset = false :=
  ⟨(keeper_budget_spec keeperCfgW (by norm_num [keeperCfgW])).1 0
      [keeperInpResetW, keeperInpAfterW],
   (keeper_budget_spec keeperCfgW (by norm_num [keeperCfgW])).2.2.2
    (initialKeeperState 0) keeperInpResetW [] keeperInpAfterW
    (by
      rw [keeper_tick_didReset_eq keeperCfgW (initialKeeperState 0)
        keeperInpResetW rfl rfl rfl]
      simp only [decide_eq_true_eq]
      norm_num [initialKeeperState, keeperInpResetW])
    (by simp)
    (by norm_num [keeperInpResetW, keeperInpAfterW])
    (by norm_num [keeperInpResetW, keeperInpAfterW])⟩

end SpeedKarma
